import Mathlib

/-!
Shallow embedding of the OTP (one-time-passcode) email-authentication core of
the gigz-api repository: the rate limiter (`checkRateLimit`), code issuance
(`requestOTP`), verification (`verifyOTP`) and the resend path (`resendOTP`),
together with the persisted stores they act on (`OTPCode` rows and
`OTPRateLimit` rows, modelled as lists of records).

Timestamps are integers (milliseconds since the epoch, as `Date.now()` in the
source).  The external collaborators (Parse user store, REST session minting,
email delivery) are modelled as explicit inputs/outputs: the nondeterministic
6-digit code drawn by `generateOTPCode` is an input parameter, the outcome of
the identity/session layer is an `IdentityOutcome` input, and sent emails are
accumulated in the state so that frame properties about them can be stated.
SHA-256 is modelled symbolically as an injective tagging function, which is
the standard symbolic model: the code relies only on distinct inputs having
distinct digests, and collisions are out of scope for the spec.
-/

namespace Gigz

/-- Constants from the source (`OTP_EXPIRY_MINUTES = 10`, etc.). -/
def OTP_EXPIRY_MINUTES : Nat := 10

def MAX_ATTEMPTS : Nat := 5

def RATE_LIMIT_EMAIL_PER_HOUR : Nat := 5

def RATE_LIMIT_IP_PER_HOUR : Nat := 10

def RATE_LIMIT_RESEND_PER_10MIN : Nat := 3

/-- Symbolic model of `hashSHA256` (crypto.ts): SHA-256 hex digest of a
string.  Modelled as an injective tag, the usual symbolic treatment of a
cryptographic hash. -/
def hashSHA256 (value : String) : String := "#" ++ value

/-- Drop leading whitespace characters (one half of `String.trim`). -/
def trimLeadingChars : List Char → List Char
  | [] => []
  | c :: cs => if c.isWhitespace then trimLeadingChars cs else c :: cs

/-- `normalizeEmail` (crypto.ts): lowercase, then trim surrounding
whitespace.  Implemented at the character level so that it evaluates by
kernel reduction on concrete inputs. -/
def normalizeEmail (email : String) : String :=
  ⟨(trimLeadingChars
      ((trimLeadingChars (email.toList.map Char.toLower)).reverse)).reverse⟩

/-- Character class `[^\s@]` of the email regex. -/
def isEmailChar (c : Char) : Bool := !c.isWhitespace && c != '@'

/-- Split a character list at every occurrence of `sep` (the semantics of
`String.split` on a single separator character). -/
def splitChar (sep : Char) : List Char → List (List Char)
  | [] => [[]]
  | c :: cs =>
      if c == sep then [] :: splitChar sep cs
      else
        match splitChar sep cs with
        | [] => [[c]]
        | grp :: gs => (c :: grp) :: gs

/-- `validateEmail` (otp.ts): the string matches
`/^[^\s@]+@[^\s@]+\.[^\s@]+$/`.  Since the character classes exclude `@`,
a match is exactly: one `@`, a nonempty local part of non-space non-`@`
characters, and a domain of such characters containing a dot that is neither
its first nor its last character. -/
def validateEmail (email : String) : Bool :=
  match splitChar '@' email.toList with
  | [localPart, domain] =>
      !localPart.isEmpty && localPart.all isEmailChar &&
      !domain.isEmpty && domain.all isEmailChar &&
      ((domain.drop 1).dropLast.contains '.')
  | _ => false

/-- The `/^\d{6}$/` code-format check in `verifyOTP`. -/
def isSixDigitCode (code : String) : Bool :=
  code.length == 6 && code.toList.all Char.isDigit

/-- The `type` column of an `OTPRateLimit` row. -/
inductive RLType where
  | email
  | ip
  | resend
deriving DecidableEq, Repr

instance : BEq RLType := ⟨fun a b => decide (a = b)⟩

/-- An `OTPRateLimit` row. -/
structure RateLimitRecord where
  identifier_hash : String
  type : RLType
  count : Nat
  window_start : Int
deriving DecidableEq, Repr

/-- An `OTPCode` row. -/
structure OTPRecord where
  email_hash : String
  code_hash : String
  expires_at : Int
  attempts : Nat
deriving DecidableEq, Repr

/-- The persisted state the cloud functions act on: the `OTPCode` table, the
`OTPRateLimit` table, and the log of emails handed to the delivery provider
(recipient, plaintext code). -/
structure CloudState where
  otps : List OTPRecord
  rls : List RateLimitRecord
  sent : List (String × String)
deriving DecidableEq, Repr

/-- Replace the first element satisfying `p` by its image under `f`
(models `increment` + `save` on the row returned by `query.first`). -/
def updateFirst (p : α → Bool) (f : α → α) : List α → List α
  | [] => []
  | x :: xs => if p x then f x :: xs else x :: updateFirst p f xs

/-- Remove the first element satisfying `p` (models `destroy` on the row
returned by `query.first`). -/
def removeFirst (p : α → Bool) : List α → List α
  | [] => []
  | x :: xs => if p x then xs else x :: removeFirst p xs

/-- The query of `checkRateLimit`: `identifier_hash = h`, `type = t`,
`window_start > windowStart`. -/
def rlMatches (idHash : String) (t : RLType) (cutoff : Int)
    (r : RateLimitRecord) : Bool :=
  r.identifier_hash == idHash && r.type == t && cutoff < r.window_start

/-- `checkRateLimit(identifierHash, type, limit, windowMinutes)` from otp.ts.
Returns (exceeded, updated rate-limit table).  `now` is `Date.now()`. -/
def checkRateLimit (idHash : String) (t : RLType) (limit : Nat)
    (windowMinutes : Nat) (now : Int) (rls : List RateLimitRecord) :
    Bool × List RateLimitRecord :=
  let cutoff : Int := now - (windowMinutes : Int) * 60 * 1000
  match (rls.filter (rlMatches idHash t cutoff)).head? with
  | some existing =>
      if limit ≤ existing.count then (true, rls)
      else (false,
        updateFirst (rlMatches idHash t cutoff)
          (fun r => { r with count := r.count + 1 }) rls)
  | none => (false, rls ++ [⟨idHash, t, 1, now⟩])

/-- Error taxonomy of the flow: `Parse.Error.INVALID_VALUE`,
`Parse.Error.OBJECT_NOT_FOUND`, `Parse.Error.INTERNAL_SERVER_ERROR`,
each carrying its message. -/
inductive OTPError where
  | invalidValue (msg : String)
  | objectNotFound (msg : String)
  | internalServerError (msg : String)
deriving DecidableEq, Repr

/-- Result of `requestOTP` / `resendOTP`. -/
structure ReqResponse where
  success : Bool
  expiresIn : Nat
deriving DecidableEq, Repr

/-- Outcome of the external identity/session layer consulted by `verifyOTP`
after the OTP record is deleted: either the user did not exist and REST
creation succeeded (returning a session token), or creation failed; or the
user existed and session minting succeeded or failed. -/
inductive IdentityOutcome where
  | newUser (token : String)
  | newUserFail
  | existingUser (token : String)
  | existingUserFail
deriving DecidableEq, Repr

/-- Whether the identity layer produced a session token. -/
def IdentityOutcome.isOk : IdentityOutcome → Bool
  | .newUser _ => true
  | .existingUser _ => true
  | _ => false

/-- Result of a successful `verifyOTP` (profile projection omitted: the
claims under verification do not touch it). -/
structure AuthResult where
  sessionToken : String
  isNewUser : Bool
deriving DecidableEq, Repr

/-- The OTP-record query used by all three functions:
`email_hash = emailHash`. -/
def otpMatches (emailHash : String) (r : OTPRecord) : Bool :=
  r.email_hash == emailHash

/-- What `verifyOTP` returns after the OTP record has been deleted, as a
function of the identity-layer outcome: the session token of the REST user
creation (new user) or of `createSessionForUser` (existing user), or the
corresponding `INTERNAL_SERVER_ERROR`. -/
def identResult : IdentityOutcome → Except OTPError AuthResult
  | .newUser token => .ok ⟨token, true⟩
  | .newUserFail =>
      .error (.internalServerError "Failed to create account. Please try again.")
  | .existingUser token => .ok ⟨token, false⟩
  | .existingUserFail =>
      .error (.internalServerError "Failed to create session. Please try again.")

/-- The shared issuance tail of `requestOTP` and `resendOTP` (the two code
blocks are verbatim identical in the source): delete every existing `OTPCode`
row for the email hash, store a fresh row with `attempts = 0` and a 10-minute
expiry, and hand the email to the delivery provider. -/
def issueCode (emailHash normalizedEmail newCode : String) (now : Int)
    (st : CloudState) : CloudState :=
  let codeHash := hashSHA256 newCode
  let expiresAt : Int := now + (OTP_EXPIRY_MINUTES : Int) * 60 * 1000
  { st with
    otps := st.otps.filter (fun r => !otpMatches emailHash r) ++
      [⟨emailHash, codeHash, expiresAt, 0⟩],
    sent := st.sent ++ [(normalizedEmail, newCode)] }

/-- The body of `requestOTP` after input validation: per-email rate check,
per-IP rate check when a client IP is present, then issuance.  `newCode` is
the value drawn by `generateOTPCode()`. -/
def requestOTPBody (emailHash normalizedEmail : String)
    (clientIP : Option String) (now : Int) (newCode : String)
    (st : CloudState) : Except OTPError ReqResponse × CloudState :=
  let res := checkRateLimit emailHash .email RATE_LIMIT_EMAIL_PER_HOUR 60 now
    st.rls
  let st1 := { st with rls := res.2 }
  if res.1 then
    (.ok ⟨true, OTP_EXPIRY_MINUTES * 60⟩, st1)
  else
    match clientIP with
    | some ipStr =>
        let ipHash := hashSHA256 ipStr
        let res2 := checkRateLimit ipHash .ip RATE_LIMIT_IP_PER_HOUR 60 now
          st1.rls
        let st2 := { st1 with rls := res2.2 }
        if res2.1 then
          (.ok ⟨true, OTP_EXPIRY_MINUTES * 60⟩, st2)
        else
          (.ok ⟨true, OTP_EXPIRY_MINUTES * 60⟩,
           issueCode emailHash normalizedEmail newCode now st2)
    | none =>
        (.ok ⟨true, OTP_EXPIRY_MINUTES * 60⟩,
         issueCode emailHash normalizedEmail newCode now st1)

/-- `requestOTP` cloud function.  An absent `email` parameter is modelled as
the empty string (the only falsy `string` value). -/
def requestOTP (email : String) (clientIP : Option String) (now : Int)
    (newCode : String) (st : CloudState) :
    Except OTPError ReqResponse × CloudState :=
  if email == "" then
    (.error (.invalidValue "Email is required"), st)
  else if !validateEmail email then
    (.error (.invalidValue "Invalid email format"), st)
  else
    let normalizedEmail := normalizeEmail email
    let emailHash := hashSHA256 normalizedEmail
    requestOTPBody emailHash normalizedEmail clientIP now newCode st

/-- `resendOTP` cloud function: same validation, then the stricter
resend-specific rate check (3 per 10 minutes), then exactly the
`requestOTP` body. -/
def resendOTP (email : String) (clientIP : Option String) (now : Int)
    (newCode : String) (st : CloudState) :
    Except OTPError ReqResponse × CloudState :=
  if email == "" then
    (.error (.invalidValue "Email is required"), st)
  else if !validateEmail email then
    (.error (.invalidValue "Invalid email format"), st)
  else
    let normalizedEmail := normalizeEmail email
    let emailHash := hashSHA256 normalizedEmail
    let res := checkRateLimit emailHash .resend RATE_LIMIT_RESEND_PER_10MIN 10
      now st.rls
    let st1 := { st with rls := res.2 }
    if res.1 then
      (.ok ⟨true, OTP_EXPIRY_MINUTES * 60⟩, st1)
    else
      requestOTPBody emailHash normalizedEmail clientIP now newCode st1

/-- `verifyOTP` cloud function.  `ident` is the outcome of the external
identity/session layer, consulted only on the success path (after the OTP
record has been deleted). -/
def verifyOTP (email code : String) (now : Int) (ident : IdentityOutcome)
    (st : CloudState) : Except OTPError AuthResult × CloudState :=
  if email == "" || code == "" then
    (.error (.invalidValue "Email and code are required"), st)
  else if !validateEmail email then
    (.error (.invalidValue "Invalid email format"), st)
  else if !isSixDigitCode code then
    (.error (.invalidValue "Invalid code format"), st)
  else
    let emailHash := hashSHA256 (normalizeEmail email)
    let codeHash := hashSHA256 code
    match (st.otps.filter (otpMatches emailHash)).head? with
    | none => (.error (.objectNotFound "Invalid or expired code"), st)
    | some otpRecord =>
        if otpRecord.expires_at < now then
          (.error (.objectNotFound "Invalid or expired code"),
           { st with otps := removeFirst (otpMatches emailHash) st.otps })
        else if MAX_ATTEMPTS ≤ otpRecord.attempts then
          (.error (.objectNotFound
             "Too many failed attempts. Please request a new code."),
           { st with otps := removeFirst (otpMatches emailHash) st.otps })
        else if codeHash != otpRecord.code_hash then
          let bumped := updateFirst (otpMatches emailHash)
            (fun r => { r with attempts := r.attempts + 1 }) st.otps
          (.error (.objectNotFound "Invalid or expired code"),
           { st with otps := bumped })
        else
          (identResult ident,
           { st with otps := removeFirst (otpMatches emailHash) st.otps })

/-- `true` exactly when neither the per-email nor the (optional) per-IP rate
check of the `requestOTP` body reports "exceeded" — i.e. when the body will
reach the issuance tail. -/
def rateChecksPass (emailHash : String) (clientIP : Option String) (now : Int)
    (rls : List RateLimitRecord) : Bool :=
  let res := checkRateLimit emailHash .email RATE_LIMIT_EMAIL_PER_HOUR 60 now
    rls
  if res.1 then false
  else
    match clientIP with
    | none => true
    | some ipStr =>
        !(checkRateLimit (hashSHA256 ipStr) .ip RATE_LIMIT_IP_PER_HOUR 60 now
          res.2).1

/-- One invocation of a cloud function of the OTP flow, with all of its
external inputs (request parameters, client IP, wall clock, generated code,
identity-layer outcome). -/
inductive OTPOp where
  | request (email : String) (clientIP : Option String) (now : Int)
      (newCode : String)
  | resend (email : String) (clientIP : Option String) (now : Int)
      (newCode : String)
  | verify (email code : String) (now : Int) (ident : IdentityOutcome)
deriving DecidableEq, Repr

/-- The state transition of one cloud-function invocation (the response is
dropped; only the persisted state matters for invariants). -/
def runOp (st : CloudState) : OTPOp → CloudState
  | .request email clientIP now newCode =>
      (requestOTP email clientIP now newCode st).2
  | .resend email clientIP now newCode =>
      (resendOTP email clientIP now newCode st).2
  | .verify email code now ident => (verifyOTP email code now ident st).2

/-- Run a sequence of cloud-function invocations. -/
def runOps (st : CloudState) (ops : List OTPOp) : CloudState :=
  ops.foldl runOp st

/-- The code-store invariant of the spec: at most one `OTPCode` row per
`email_hash`, and every live row has `attempts ≤ MAX_ATTEMPTS`. -/
def OTPInv (otps : List OTPRecord) : Prop :=
  (otps.map OTPRecord.email_hash).Nodup ∧
  ∀ r ∈ otps, r.attempts ≤ MAX_ATTEMPTS

instance (otps : List OTPRecord) : Decidable (OTPInv otps) := by
  unfold OTPInv; infer_instance

instance {ε α : Type} [DecidableEq ε] [DecidableEq α] :
    DecidableEq (Except ε α)
  | .ok a, .ok b =>
      if h : a = b then .isTrue (congrArg Except.ok h)
      else .isFalse (fun hh => h (Except.ok.inj hh))
  | .error a, .error b =>
      if h : a = b then .isTrue (congrArg Except.error h)
      else .isFalse (fun hh => h (Except.error.inj hh))
  | .ok _, .error _ => .isFalse (fun hh => Except.noConfusion hh)
  | .error _, .ok _ => .isFalse (fun hh => Except.noConfusion hh)

/-! ### Helper lemmas -/

theorem hashSHA256_injective : Function.Injective hashSHA256 := by
  intro a b h
  have hd : ("#" ++ a).data = ("#" ++ b).data := congrArg String.data h
  rw [String.data_append, String.data_append] at hd
  exact String.ext (List.append_cancel_left hd)

theorem validateEmail_ne_empty {email : String}
    (h : validateEmail email = true) : (email == "") = false := by
  by_cases he : email = ""
  · subst he; exact absurd h (by decide)
  · exact beq_eq_false_iff_ne.mpr he

theorem isSixDigitCode_ne_empty {code : String}
    (h : isSixDigitCode code = true) : (code == "") = false := by
  by_cases hc : code = ""
  · subst hc; exact absurd h (by decide)
  · exact beq_eq_false_iff_ne.mpr hc

/-- `query.first` semantics: if the first record matching `p` is `r`, the
store splits as a `p`-free prefix, then `r`, then the rest. -/
theorem head_filter_some {α : Type} (p : α → Bool) (l : List α) (r : α)
    (h : (l.filter p).head? = some r) :
    ∃ l₁ l₂, l = l₁ ++ r :: l₂ ∧ (∀ x ∈ l₁, p x = false) ∧ p r = true := by
  induction l with
  | nil => simp at h
  | cons x xs ih =>
      rw [List.filter_cons] at h
      by_cases hx : p x
      · simp only [hx, if_pos, List.head?_cons, Option.some.injEq] at h
        subst h
        exact ⟨[], xs, rfl, by simp, hx⟩
      · simp only [hx, Bool.false_eq_true, if_neg, not_false_iff] at h
        obtain ⟨l₁, l₂, rfl, h1, h2⟩ := ih h
        refine ⟨x :: l₁, l₂, rfl, ?_, h2⟩
        intro y hy
        rcases List.mem_cons.mp hy with rfl | hy'
        · simpa using hx
        · exact h1 y hy'

theorem head_filter_none {α : Type} (p : α → Bool) (l : List α)
    (h : (l.filter p).head? = none) : ∀ x ∈ l, p x = false := by
  intro x hx
  have hnil : l.filter p = [] := List.head?_eq_none_iff.mp h
  have := List.filter_eq_nil_iff.mp hnil x hx
  simpa using this

theorem updateFirst_append {α : Type} (p : α → Bool) (f : α → α)
    (l₁ l₂ : List α) (r : α) (h1 : ∀ x ∈ l₁, p x = false) (hr : p r = true) :
    updateFirst p f (l₁ ++ r :: l₂) = l₁ ++ f r :: l₂ := by
  induction l₁ with
  | nil => simp [updateFirst, hr]
  | cons x xs ih =>
      have hx := h1 x (by simp)
      have ih' := ih (fun y hy => h1 y (List.mem_cons_of_mem x hy))
      simp [updateFirst, hx, ih']

theorem removeFirst_append {α : Type} (p : α → Bool)
    (l₁ l₂ : List α) (r : α) (h1 : ∀ x ∈ l₁, p x = false) (hr : p r = true) :
    removeFirst p (l₁ ++ r :: l₂) = l₁ ++ l₂ := by
  induction l₁ with
  | nil => simp [removeFirst, hr]
  | cons x xs ih =>
      have hx := h1 x (by simp)
      have ih' := ih (fun y hy => h1 y (List.mem_cons_of_mem x hy))
      simp [removeFirst, hx, ih']

theorem removeFirst_sublist {α : Type} (p : α → Bool) (l : List α) :
    List.Sublist (removeFirst p l) l := by
  induction l with
  | nil => simp [removeFirst]
  | cons x xs ih =>
      by_cases hx : p x
      · rw [removeFirst, if_pos hx]
        exact List.sublist_cons_of_sublist x (List.Sublist.refl xs)
      · rw [removeFirst, if_neg (by simp [hx])]
        exact List.Sublist.cons₂ x ih

theorem filter_not_self {α : Type} (p : α → Bool) (l : List α) :
    (l.filter (fun x => !p x)).filter p = [] := by
  induction l with
  | nil => simp
  | cons x xs ih =>
      by_cases hx : p x <;> simp [hx, List.filter_cons, ih]

theorem mem_filter_not {α : Type} (p : α → Bool) (l : List α) (x : α)
    (hx : x ∈ l.filter (fun y => !p y)) : p x = false := by
  have := (List.mem_filter.mp hx).2
  simpa using this

/-! ### Branch lemmas for `verifyOTP` -/

theorem verifyOTP_noRecord (email code : String) (now : Int)
    (ident : IdentityOutcome) (st : CloudState)
    (hv : validateEmail email = true) (hc : isSixDigitCode code = true)
    (h : (st.otps.filter
      (otpMatches (hashSHA256 (normalizeEmail email)))).head? = none) :
    verifyOTP email code now ident st =
      (.error (.objectNotFound "Invalid or expired code"), st) := by
  unfold verifyOTP
  simp [validateEmail_ne_empty hv, isSixDigitCode_ne_empty hc, hv, hc, h]

theorem verifyOTP_expired (email code : String) (now : Int)
    (ident : IdentityOutcome) (st : CloudState) (r : OTPRecord)
    (hv : validateEmail email = true) (hc : isSixDigitCode code = true)
    (h : (st.otps.filter
      (otpMatches (hashSHA256 (normalizeEmail email)))).head? = some r)
    (hexp : r.expires_at < now) :
    verifyOTP email code now ident st =
      (.error (.objectNotFound "Invalid or expired code"),
       { st with
           otps := removeFirst
             (otpMatches (hashSHA256 (normalizeEmail email))) st.otps }) := by
  unfold verifyOTP
  simp [validateEmail_ne_empty hv, isSixDigitCode_ne_empty hc, hv, hc, h,
    hexp]

theorem verifyOTP_maxAttempts (email code : String) (now : Int)
    (ident : IdentityOutcome) (st : CloudState) (r : OTPRecord)
    (hv : validateEmail email = true) (hc : isSixDigitCode code = true)
    (h : (st.otps.filter
      (otpMatches (hashSHA256 (normalizeEmail email)))).head? = some r)
    (hexp : ¬(r.expires_at < now)) (hatt : MAX_ATTEMPTS ≤ r.attempts) :
    verifyOTP email code now ident st =
      (.error (.objectNotFound
         "Too many failed attempts. Please request a new code."),
       { st with
           otps := removeFirst
             (otpMatches (hashSHA256 (normalizeEmail email))) st.otps }) := by
  unfold verifyOTP
  simp [validateEmail_ne_empty hv, isSixDigitCode_ne_empty hc, hv, hc, h,
    hexp, hatt]

theorem verifyOTP_mismatch (email code : String) (now : Int)
    (ident : IdentityOutcome) (st : CloudState) (r : OTPRecord)
    (hv : validateEmail email = true) (hc : isSixDigitCode code = true)
    (h : (st.otps.filter
      (otpMatches (hashSHA256 (normalizeEmail email)))).head? = some r)
    (hexp : ¬(r.expires_at < now)) (hatt : r.attempts < MAX_ATTEMPTS)
    (hne : hashSHA256 code ≠ r.code_hash) :
    verifyOTP email code now ident st =
      (.error (.objectNotFound "Invalid or expired code"),
       { st with
           otps := updateFirst
             (otpMatches (hashSHA256 (normalizeEmail email)))
             (fun x => { x with attempts := x.attempts + 1 }) st.otps }) := by
  unfold verifyOTP
  simp [validateEmail_ne_empty hv, isSixDigitCode_ne_empty hc, hv, hc, h,
    hexp, Nat.not_le.mpr hatt, bne_iff_ne, hne]

theorem verifyOTP_success (email code : String) (now : Int)
    (ident : IdentityOutcome) (st : CloudState) (r : OTPRecord)
    (hv : validateEmail email = true) (hc : isSixDigitCode code = true)
    (h : (st.otps.filter
      (otpMatches (hashSHA256 (normalizeEmail email)))).head? = some r)
    (hexp : ¬(r.expires_at < now)) (hatt : r.attempts < MAX_ATTEMPTS)
    (heq : hashSHA256 code = r.code_hash) :
    verifyOTP email code now ident st =
      (identResult ident,
       { st with
           otps := removeFirst
             (otpMatches (hashSHA256 (normalizeEmail email))) st.otps }) := by
  unfold verifyOTP
  simp [validateEmail_ne_empty hv, isSixDigitCode_ne_empty hc, hv, hc, h,
    hexp, Nat.not_le.mpr hatt, heq]

/-! ### Branch lemmas for `requestOTP` / `resendOTP` -/

theorem requestOTP_validated (email : String) (clientIP : Option String)
    (now : Int) (newCode : String) (st : CloudState)
    (hv : validateEmail email = true) :
    requestOTP email clientIP now newCode st =
      requestOTPBody (hashSHA256 (normalizeEmail email))
        (normalizeEmail email) clientIP now newCode st := by
  unfold requestOTP
  simp [validateEmail_ne_empty hv, hv]

theorem requestOTPBody_pass (emailHash ne : String)
    (clientIP : Option String) (now : Int) (newCode : String)
    (st : CloudState)
    (h : rateChecksPass emailHash clientIP now st.rls = true) :
    ∃ rls2, requestOTPBody emailHash ne clientIP now newCode st =
      (.ok ⟨true, OTP_EXPIRY_MINUTES * 60⟩,
       ⟨st.otps.filter (fun r => !otpMatches emailHash r) ++
          [⟨emailHash, hashSHA256 newCode,
            now + (OTP_EXPIRY_MINUTES : Int) * 60 * 1000, 0⟩],
        rls2,
        st.sent ++ [(ne, newCode)]⟩) := by
  unfold rateChecksPass at h
  unfold requestOTPBody
  rcases hres : checkRateLimit emailHash .email RATE_LIMIT_EMAIL_PER_HOUR 60
    now st.rls with ⟨e, rls1⟩
  simp only [hres] at h ⊢
  cases e with
  | true => simp at h
  | false =>
      rw [if_neg Bool.false_ne_true] at h
      rw [if_neg Bool.false_ne_true]
      cases clientIP with
      | none => exact ⟨rls1, by simp [issueCode]⟩
      | some ipStr =>
          rcases hres2 : checkRateLimit (hashSHA256 ipStr) .ip
            RATE_LIMIT_IP_PER_HOUR 60 now rls1 with ⟨e2, rls2⟩
          simp only [hres2] at h ⊢
          cases e2 with
          | true => simp at h
          | false => exact ⟨rls2, by simp [issueCode]⟩

theorem requestOTPBody_limited (emailHash ne : String)
    (clientIP : Option String) (now : Int) (newCode : String)
    (st : CloudState)
    (h : rateChecksPass emailHash clientIP now st.rls = false) :
    ∃ rls2, requestOTPBody emailHash ne clientIP now newCode st =
      (.ok ⟨true, OTP_EXPIRY_MINUTES * 60⟩, ⟨st.otps, rls2, st.sent⟩) := by
  unfold rateChecksPass at h
  unfold requestOTPBody
  rcases hres : checkRateLimit emailHash .email RATE_LIMIT_EMAIL_PER_HOUR 60
    now st.rls with ⟨e, rls1⟩
  simp only [hres] at h ⊢
  cases e with
  | true => exact ⟨rls1, by simp⟩
  | false =>
      rw [if_neg Bool.false_ne_true] at h
      rw [if_neg Bool.false_ne_true]
      cases clientIP with
      | none => simp at h
      | some ipStr =>
          rcases hres2 : checkRateLimit (hashSHA256 ipStr) .ip
            RATE_LIMIT_IP_PER_HOUR 60 now rls1 with ⟨e2, rls2⟩
          simp only [hres2] at h ⊢
          cases e2 with
          | true => exact ⟨rls2, by simp⟩
          | false => simp at h


/-- C3: `checkRateLimit` contract: inside the window, a record at or above
the limit yields `exceeded = true` with no mutation; a record below the
limit gets its count incremented by 1 and yields `exceeded = false`; no
record yields a fresh record with count 1 and `window_start = now` and
`exceeded = false`. -/
theorem checkRateLimit_contract (idHash : String) (t : RLType)
    (limit windowMinutes : Nat) (now : Int) (rls : List RateLimitRecord) :
    (∀ r, (rls.filter
        (rlMatches idHash t (now - (windowMinutes : Int) * 60 * 1000))).head?
          = some r →
      limit ≤ r.count →
      checkRateLimit idHash t limit windowMinutes now rls = (true, rls)) ∧
    (∀ r, (rls.filter
        (rlMatches idHash t (now - (windowMinutes : Int) * 60 * 1000))).head?
          = some r →
      r.count < limit →
      ∃ pre post, rls = pre ++ r :: post ∧
        (∀ x ∈ pre,
          rlMatches idHash t (now - (windowMinutes : Int) * 60 * 1000) x
            = false) ∧
        checkRateLimit idHash t limit windowMinutes now rls =
          (false, pre ++ { r with count := r.count + 1 } :: post)) ∧
    ((rls.filter
        (rlMatches idHash t (now - (windowMinutes : Int) * 60 * 1000))).head?
          = none →
      checkRateLimit idHash t limit windowMinutes now rls =
        (false, rls ++ [⟨idHash, t, 1, now⟩])) := by
  refine ⟨?_, ?_, ?_⟩
  · intro r h hl
    unfold checkRateLimit
    simp only [h]
    rw [if_pos hl]
  · intro r h hl
    obtain ⟨pre, post, heq, hpre, hr⟩ := head_filter_some _ _ _ h
    refine ⟨pre, post, heq, hpre, ?_⟩
    unfold checkRateLimit
    simp only [h]
    rw [if_neg (Nat.not_le.mpr hl)]
    rw [heq, updateFirst_append _ _ _ _ _ hpre hr]
  · intro h
    unfold checkRateLimit
    simp only [h]

/-- Witness for C3: all three cases of the contract at concrete inputs. -/
theorem checkRateLimit_contract_witness :
    (checkRateLimit "h1" .email 5 60 3600000
        [⟨"h1", RLType.email, 5, 100⟩] =
      (true, [⟨"h1", RLType.email, 5, 100⟩])) ∧
    (∃ pre post,
      ([⟨"h1", RLType.email, 2, 100⟩] : List RateLimitRecord) =
        pre ++ ⟨"h1", RLType.email, 2, 100⟩ :: post ∧
      (∀ x ∈ pre, rlMatches "h1" .email (3600000 - (60 : Int) * 60 * 1000) x
        = false) ∧
      checkRateLimit "h1" .email 5 60 3600000
          [⟨"h1", RLType.email, 2, 100⟩] =
        (false, pre ++ ⟨"h1", RLType.email, 3, 100⟩ :: post)) ∧
    (checkRateLimit "h1" .email 5 60 3600000 [] =
      (false, [⟨"h1", RLType.email, 1, 3600000⟩])) := by
  refine ⟨?_, ?_, ?_⟩
  · exact (checkRateLimit_contract "h1" .email 5 60 3600000
      [⟨"h1", RLType.email, 5, 100⟩]).1 ⟨"h1", RLType.email, 5, 100⟩
      (by decide) (by decide)
  · exact (checkRateLimit_contract "h1" .email 5 60 3600000
      [⟨"h1", RLType.email, 2, 100⟩]).2.1 ⟨"h1", RLType.email, 2, 100⟩
      (by decide) (by decide)
  · exact (checkRateLimit_contract "h1" .email 5 60 3600000 []).2.2
      (by decide)


/-- C5: a `verifyOTP` call on a record past `expires_at` fails with
NotFound ("Invalid or expired code") and deletes the record, with no
hypothesis on the record's attempt count or on whether the submitted code
matches the stored hash. -/
theorem verifyOTP_expired_fails_and_deletes (email code : String)
    (now : Int) (ident : IdentityOutcome) (st : CloudState) (r : OTPRecord)
    (hv : validateEmail email = true) (hc : isSixDigitCode code = true)
    (h : (st.otps.filter
      (otpMatches (hashSHA256 (normalizeEmail email)))).head? = some r)
    (hexp : r.expires_at < now) :
    (verifyOTP email code now ident st).1 =
      .error (.objectNotFound "Invalid or expired code") ∧
    ∃ pre post, st.otps = pre ++ r :: post ∧
      (∀ x ∈ pre,
        otpMatches (hashSHA256 (normalizeEmail email)) x = false) ∧
      (verifyOTP email code now ident st).2 = { st with otps := pre ++ post }
    := by
  have hmain := verifyOTP_expired email code now ident st r hv hc h hexp
  obtain ⟨pre, post, heq, hpre, hr⟩ := head_filter_some _ _ _ h
  refine ⟨by rw [hmain], pre, post, heq, hpre, ?_⟩
  rw [hmain]
  have hrm : removeFirst (otpMatches (hashSHA256 (normalizeEmail email)))
      st.otps = pre ++ post := by
    rw [heq]
    exact removeFirst_append _ _ _ _ hpre hr
  rw [hrm]

/-- Witness for C5: an expired record with attempts remaining and the
correct code submitted still fails and is deleted. -/
theorem verifyOTP_expired_fails_and_deletes_witness :
    (verifyOTP "a@b.com" "111111" 2000 (.existingUser "t")
      ⟨[⟨"#a@b.com", "#111111", 100, 0⟩], [], []⟩).1 =
      .error (.objectNotFound "Invalid or expired code") ∧
    ∃ pre post,
      ([⟨"#a@b.com", "#111111", 100, 0⟩] : List OTPRecord) =
        pre ++ ⟨"#a@b.com", "#111111", 100, 0⟩ :: post ∧
      (∀ x ∈ pre, otpMatches (hashSHA256 (normalizeEmail "a@b.com")) x
        = false) ∧
      (verifyOTP "a@b.com" "111111" 2000 (.existingUser "t")
        ⟨[⟨"#a@b.com", "#111111", 100, 0⟩], [], []⟩).2 =
      { otps := pre ++ post, rls := [], sent := [] } :=
  verifyOTP_expired_fails_and_deletes "a@b.com" "111111" 2000
    (.existingUser "t") ⟨[⟨"#a@b.com", "#111111", 100, 0⟩], [], []⟩
    ⟨"#a@b.com", "#111111", 100, 0⟩ (by decide) (by decide) (by decide)
    (by decide)


/-- Counterexample to C4 as stated: with a record whose attempts counter has
reached `MAX_ATTEMPTS`, `verifyOTP` (here given the correct code) fails with
a NotFound error whose message is NOT the generic "Invalid or expired code"
but "Too many failed attempts. Please request a new code.", so the caller
can distinguish this failure mode. -/
theorem verifyOTP_message_counterexample :
    (verifyOTP "a@b.com" "111111" 0 (.existingUser "t")
      ⟨[⟨"#a@b.com", "#111111", 601000, 5⟩], [], []⟩).1 =
      .error (.objectNotFound
        "Too many failed attempts. Please request a new code.") ∧
    (verifyOTP "a@b.com" "111111" 0 (.existingUser "t")
      ⟨[⟨"#a@b.com", "#111111", 601000, 5⟩], [], []⟩).1 ≠
      .error (.objectNotFound "Invalid or expired code") := by
  refine ⟨by decide, by decide⟩

/-- C4 amended: all four store-level failure situations of `verifyOTP` fail
with the NotFound error kind, but only three of them (no record, expired,
code mismatch) carry the generic "Invalid or expired code" message; the
attempts-exhausted situation carries the distinct message "Too many failed
attempts. Please request a new code.". -/
theorem verifyOTP_failure_taxonomy (email code : String) (now : Int)
    (ident : IdentityOutcome) (st : CloudState)
    (hv : validateEmail email = true) (hc : isSixDigitCode code = true) :
    ((st.otps.filter
        (otpMatches (hashSHA256 (normalizeEmail email)))).head? = none →
      (verifyOTP email code now ident st).1 =
        .error (.objectNotFound "Invalid or expired code")) ∧
    (∀ r, (st.otps.filter
        (otpMatches (hashSHA256 (normalizeEmail email)))).head? = some r →
      r.expires_at < now →
      (verifyOTP email code now ident st).1 =
        .error (.objectNotFound "Invalid or expired code")) ∧
    (∀ r, (st.otps.filter
        (otpMatches (hashSHA256 (normalizeEmail email)))).head? = some r →
      ¬(r.expires_at < now) → MAX_ATTEMPTS ≤ r.attempts →
      (verifyOTP email code now ident st).1 =
        .error (.objectNotFound
          "Too many failed attempts. Please request a new code.")) ∧
    (∀ r, (st.otps.filter
        (otpMatches (hashSHA256 (normalizeEmail email)))).head? = some r →
      ¬(r.expires_at < now) → r.attempts < MAX_ATTEMPTS →
      hashSHA256 code ≠ r.code_hash →
      (verifyOTP email code now ident st).1 =
        .error (.objectNotFound "Invalid or expired code")) := by
  refine ⟨?_, ?_, ?_, ?_⟩
  · intro h
    rw [verifyOTP_noRecord email code now ident st hv hc h]
  · intro r h hexp
    rw [verifyOTP_expired email code now ident st r hv hc h hexp]
  · intro r h hexp hatt
    rw [verifyOTP_maxAttempts email code now ident st r hv hc h hexp hatt]
  · intro r h hexp hatt hne
    rw [verifyOTP_mismatch email code now ident st r hv hc h hexp hatt hne]

/-- Witness for the amended C4: each of the four failure situations at a
concrete input, with the message of each. -/
theorem verifyOTP_failure_taxonomy_witness :
    ((verifyOTP "a@b.com" "111111" 0 (.existingUser "t")
        ⟨[], [], []⟩).1 =
      .error (.objectNotFound "Invalid or expired code")) ∧
    ((verifyOTP "a@b.com" "111111" 500 (.existingUser "t")
        ⟨[⟨"#a@b.com", "#111111", 100, 0⟩], [], []⟩).1 =
      .error (.objectNotFound "Invalid or expired code")) ∧
    ((verifyOTP "a@b.com" "111111" 0 (.existingUser "t")
        ⟨[⟨"#a@b.com", "#111111", 601000, 5⟩], [], []⟩).1 =
      .error (.objectNotFound
        "Too many failed attempts. Please request a new code.")) ∧
    ((verifyOTP "a@b.com" "222222" 0 (.existingUser "t")
        ⟨[⟨"#a@b.com", "#111111", 601000, 0⟩], [], []⟩).1 =
      .error (.objectNotFound "Invalid or expired code")) := by
  refine ⟨?_, ?_, ?_, ?_⟩
  · exact (verifyOTP_failure_taxonomy "a@b.com" "111111" 0
      (.existingUser "t") ⟨[], [], []⟩ (by decide) (by decide)).1 (by decide)
  · exact (verifyOTP_failure_taxonomy "a@b.com" "111111" 500
      (.existingUser "t") ⟨[⟨"#a@b.com", "#111111", 100, 0⟩], [], []⟩
      (by decide) (by decide)).2.1 ⟨"#a@b.com", "#111111", 100, 0⟩
      (by decide) (by decide)
  · exact (verifyOTP_failure_taxonomy "a@b.com" "111111" 0
      (.existingUser "t") ⟨[⟨"#a@b.com", "#111111", 601000, 5⟩], [], []⟩
      (by decide) (by decide)).2.2.1 ⟨"#a@b.com", "#111111", 601000, 5⟩
      (by decide) (by decide) (by decide)
  · exact (verifyOTP_failure_taxonomy "a@b.com" "222222" 0
      (.existingUser "t") ⟨[⟨"#a@b.com", "#111111", 601000, 0⟩], [], []⟩
      (by decide) (by decide)).2.2.2 ⟨"#a@b.com", "#111111", 601000, 0⟩
      (by decide) (by decide) (by decide) (by decide)


/-- Counterexample to C2 as stated: a record that has already absorbed
`MAX_ATTEMPTS - 1 = 4` wrong submissions receives its 5th wrong submission;
the claim says this deletes the record, but the code keeps the record alive
with attempts incremented to 5 (deletion only happens on the next call). -/
theorem verifyOTP_fifth_wrong_counterexample :
    (verifyOTP "a@b.com" "222222" 0 (.existingUser "t")
      ⟨[⟨"#a@b.com", "#111111", 601000, 4⟩], [], []⟩).2.otps =
      [⟨"#a@b.com", "#111111", 601000, 5⟩] ∧
    [⟨"#a@b.com", "#111111", 601000, 5⟩] ≠ ([] : List OTPRecord) := by
  refine ⟨by decide, by decide⟩

/-- C2 amended: a wrong submission while `attempts < MAX_ATTEMPTS` keeps the
record alive with attempts incremented by 1 (so up to MAX_ATTEMPTS = 5 wrong
submissions are absorbed, not 4); once `attempts ≥ MAX_ATTEMPTS`, the next
call — even with the correct code — deletes the record and fails with
NotFound; with no record every call fails with NotFound. -/
theorem verifyOTP_attempt_lifecycle (email code : String) (now : Int)
    (ident : IdentityOutcome) (st : CloudState)
    (hv : validateEmail email = true) (hc : isSixDigitCode code = true) :
    (∀ r, (st.otps.filter
        (otpMatches (hashSHA256 (normalizeEmail email)))).head? = some r →
      ¬(r.expires_at < now) → r.attempts < MAX_ATTEMPTS →
      hashSHA256 code ≠ r.code_hash →
      (verifyOTP email code now ident st).1 =
        .error (.objectNotFound "Invalid or expired code") ∧
      ∃ pre post, st.otps = pre ++ r :: post ∧
        (verifyOTP email code now ident st).2.otps =
          pre ++ { r with attempts := r.attempts + 1 } :: post) ∧
    (∀ r, (st.otps.filter
        (otpMatches (hashSHA256 (normalizeEmail email)))).head? = some r →
      ¬(r.expires_at < now) → MAX_ATTEMPTS ≤ r.attempts →
      (verifyOTP email code now ident st).1 =
        .error (.objectNotFound
          "Too many failed attempts. Please request a new code.") ∧
      ∃ pre post, st.otps = pre ++ r :: post ∧
        (verifyOTP email code now ident st).2.otps = pre ++ post) ∧
    ((st.otps.filter
        (otpMatches (hashSHA256 (normalizeEmail email)))).head? = none →
      (verifyOTP email code now ident st).1 =
        .error (.objectNotFound "Invalid or expired code") ∧
      (verifyOTP email code now ident st).2 = st) := by
  refine ⟨?_, ?_, ?_⟩
  · intro r h hexp hatt hne
    have hmain := verifyOTP_mismatch email code now ident st r hv hc h hexp
      hatt hne
    obtain ⟨pre, post, heq, hpre, hr⟩ := head_filter_some _ _ _ h
    refine ⟨by rw [hmain], pre, post, heq, ?_⟩
    rw [hmain]
    show updateFirst _ _ st.otps = _
    rw [heq, updateFirst_append _ _ _ _ _ hpre hr]
  · intro r h hexp hatt
    have hmain := verifyOTP_maxAttempts email code now ident st r hv hc h
      hexp hatt
    obtain ⟨pre, post, heq, hpre, hr⟩ := head_filter_some _ _ _ h
    refine ⟨by rw [hmain], pre, post, heq, ?_⟩
    rw [hmain]
    show removeFirst _ st.otps = _
    rw [heq, removeFirst_append _ _ _ _ hpre hr]
  · intro h
    rw [verifyOTP_noRecord email code now ident st hv hc h]
    exact ⟨rfl, rfl⟩

/-- Witness for the amended C2: the 5th wrong submission keeps the record
(attempts 4 → 5); the following call with the correct code deletes it and
fails; a further call finds nothing. -/
theorem verifyOTP_attempt_lifecycle_witness :
    ((verifyOTP "a@b.com" "222222" 0 (.existingUser "t")
        ⟨[⟨"#a@b.com", "#111111", 601000, 4⟩], [], []⟩).1 =
      .error (.objectNotFound "Invalid or expired code") ∧
     ∃ pre post,
       ([⟨"#a@b.com", "#111111", 601000, 4⟩] : List OTPRecord) =
         pre ++ ⟨"#a@b.com", "#111111", 601000, 4⟩ :: post ∧
       (verifyOTP "a@b.com" "222222" 0 (.existingUser "t")
         ⟨[⟨"#a@b.com", "#111111", 601000, 4⟩], [], []⟩).2.otps =
         pre ++ ⟨"#a@b.com", "#111111", 601000, 5⟩ :: post) ∧
    ((verifyOTP "a@b.com" "111111" 0 (.existingUser "t")
        ⟨[⟨"#a@b.com", "#111111", 601000, 5⟩], [], []⟩).1 =
      .error (.objectNotFound
        "Too many failed attempts. Please request a new code.") ∧
     ∃ pre post,
       ([⟨"#a@b.com", "#111111", 601000, 5⟩] : List OTPRecord) =
         pre ++ ⟨"#a@b.com", "#111111", 601000, 5⟩ :: post ∧
       (verifyOTP "a@b.com" "111111" 0 (.existingUser "t")
         ⟨[⟨"#a@b.com", "#111111", 601000, 5⟩], [], []⟩).2.otps =
         pre ++ post) ∧
    ((verifyOTP "a@b.com" "111111" 0 (.existingUser "t")
        ⟨[], [], []⟩).1 =
      .error (.objectNotFound "Invalid or expired code") ∧
     (verifyOTP "a@b.com" "111111" 0 (.existingUser "t")
       ⟨[], [], []⟩).2 = ⟨[], [], []⟩) := by
  refine ⟨?_, ?_, ?_⟩
  · exact (verifyOTP_attempt_lifecycle "a@b.com" "222222" 0
      (.existingUser "t") ⟨[⟨"#a@b.com", "#111111", 601000, 4⟩], [], []⟩
      (by decide) (by decide)).1 ⟨"#a@b.com", "#111111", 601000, 4⟩
      (by decide) (by decide) (by decide) (by decide)
  · exact (verifyOTP_attempt_lifecycle "a@b.com" "111111" 0
      (.existingUser "t") ⟨[⟨"#a@b.com", "#111111", 601000, 5⟩], [], []⟩
      (by decide) (by decide)).2.1 ⟨"#a@b.com", "#111111", 601000, 5⟩
      (by decide) (by decide) (by decide)
  · exact (verifyOTP_attempt_lifecycle "a@b.com" "111111" 0
      (.existingUser "t") ⟨[], [], []⟩ (by decide) (by decide)).2.2
      (by decide)


/-- C1: after a non-rate-limited `requestOTP`, a first `verifyOTP` with the
correct code (within the expiry window, identity layer succeeding) returns a
session token, and a second `verifyOTP` with the same email and code fails
with NotFound, because the record was deleted on success. -/
theorem requestOTP_verify_one_time (email code : String)
    (clientIP : Option String) (t1 t2 t3 : Int)
    (ident ident2 : IdentityOutcome) (st : CloudState)
    (hv : validateEmail email = true) (hc : isSixDigitCode code = true)
    (hrl : rateChecksPass (hashSHA256 (normalizeEmail email)) clientIP t1
      st.rls = true)
    (ht : ¬(t1 + (OTP_EXPIRY_MINUTES : Int) * 60 * 1000 < t2))
    (hid : ident.isOk = true) :
    (∃ res, (verifyOTP email code t2 ident
      ((requestOTP email clientIP t1 code st).2)).1 = .ok res) ∧
    (verifyOTP email code t3 ident2
      ((verifyOTP email code t2 ident
        ((requestOTP email clientIP t1 code st).2)).2)).1 =
      .error (.objectNotFound "Invalid or expired code") := by
  obtain ⟨rls2, hbody⟩ := requestOTPBody_pass
    (hashSHA256 (normalizeEmail email)) (normalizeEmail email) clientIP t1
    code st hrl
  have hst1 : (requestOTP email clientIP t1 code st).2 =
      ⟨st.otps.filter
        (fun r => !otpMatches (hashSHA256 (normalizeEmail email)) r) ++
          [⟨hashSHA256 (normalizeEmail email), hashSHA256 code,
            t1 + (OTP_EXPIRY_MINUTES : Int) * 60 * 1000, 0⟩],
        rls2, st.sent ++ [(normalizeEmail email, code)]⟩ := by
    rw [requestOTP_validated email clientIP t1 code st hv, hbody]
  have hfind : (((requestOTP email clientIP t1 code st).2).otps.filter
      (otpMatches (hashSHA256 (normalizeEmail email)))).head? =
      some ⟨hashSHA256 (normalizeEmail email), hashSHA256 code,
        t1 + (OTP_EXPIRY_MINUTES : Int) * 60 * 1000, 0⟩ := by
    rw [hst1]
    show ((st.otps.filter
      (fun r => !otpMatches (hashSHA256 (normalizeEmail email)) r) ++
        [(⟨hashSHA256 (normalizeEmail email), hashSHA256 code,
          t1 + (OTP_EXPIRY_MINUTES : Int) * 60 * 1000, 0⟩ : OTPRecord)]).filter
      (otpMatches (hashSHA256 (normalizeEmail email)))).head? = _
    rw [List.filter_append, filter_not_self]
    simp [otpMatches]
  have hsucc := verifyOTP_success email code t2 ident
    ((requestOTP email clientIP t1 code st).2)
    ⟨hashSHA256 (normalizeEmail email), hashSHA256 code,
      t1 + (OTP_EXPIRY_MINUTES : Int) * 60 * 1000, 0⟩
    hv hc hfind ht (show (0 : Nat) < MAX_ATTEMPTS by decide) rfl
  constructor
  · rw [hsucc]
    cases ident with
    | newUser tok => exact ⟨⟨tok, true⟩, rfl⟩
    | existingUser tok => exact ⟨⟨tok, false⟩, rfl⟩
    | newUserFail => simp [IdentityOutcome.isOk] at hid
    | existingUserFail => simp [IdentityOutcome.isOk] at hid
  · have hotps2 : ((verifyOTP email code t2 ident
        ((requestOTP email clientIP t1 code st).2)).2).otps =
        st.otps.filter
          (fun r => !otpMatches (hashSHA256 (normalizeEmail email)) r) := by
      rw [hsucc]
      show removeFirst (otpMatches (hashSHA256 (normalizeEmail email)))
        (((requestOTP email clientIP t1 code st).2).otps) = _
      rw [hst1]
      show removeFirst (otpMatches (hashSHA256 (normalizeEmail email)))
        (st.otps.filter
          (fun r => !otpMatches (hashSHA256 (normalizeEmail email)) r) ++
          (⟨hashSHA256 (normalizeEmail email), hashSHA256 code,
            t1 + (OTP_EXPIRY_MINUTES : Int) * 60 * 1000, 0⟩ : OTPRecord)
            :: []) = _
      rw [removeFirst_append _ _ _ _
        (fun x hx => mem_filter_not _ _ _ hx) (by simp [otpMatches])]
      simp
    have hnone : (((verifyOTP email code t2 ident
        ((requestOTP email clientIP t1 code st).2)).2).otps.filter
        (otpMatches (hashSHA256 (normalizeEmail email)))).head? = none := by
      rw [hotps2, filter_not_self]
      rfl
    rw [verifyOTP_noRecord email code t3 ident2 _ hv hc hnone]

/-- Witness for C1: a fresh store, a valid email and code, request at time 0
and verify at times 1 and 2. -/
theorem requestOTP_verify_one_time_witness :
    (∃ res, (verifyOTP "a@b.com" "123456" 1 (.existingUser "tok")
      ((requestOTP "a@b.com" none 0 "123456" ⟨[], [], []⟩).2)).1 =
        .ok res) ∧
    (verifyOTP "a@b.com" "123456" 2 (.newUser "tok2")
      ((verifyOTP "a@b.com" "123456" 1 (.existingUser "tok")
        ((requestOTP "a@b.com" none 0 "123456" ⟨[], [], []⟩).2)).2)).1 =
      .error (.objectNotFound "Invalid or expired code") :=
  requestOTP_verify_one_time "a@b.com" "123456" none 0 1 2
    (.existingUser "tok") (.newUser "tok2") ⟨[], [], []⟩
    (by decide) (by decide) (by decide) (by decide) (by decide)


theorem filter_not_idem_append {α : Type} (p : α → Bool) (l : List α)
    (x : α) (hx : p x = true) :
    (l.filter (fun y => !p y) ++ [x]).filter (fun y => !p y) =
      l.filter (fun y => !p y) := by
  rw [List.filter_append]
  have h1 : (l.filter (fun y => !p y)).filter (fun y => !p y) =
      l.filter (fun y => !p y) := by
    induction l with
    | nil => simp
    | cons z zs ih =>
        by_cases hz : p z <;> simp [List.filter_cons, hz, ih]
  have h2 : [x].filter (fun y => !p y) = [] := by simp [hx]
  rw [h1, h2, List.append_nil]

/-- C6: two successive non-rate-limited `requestOTP` calls leave exactly one
record for the email, holding the second code's hash; `verifyOTP` then
succeeds with the second code and fails with NotFound on the first code
(the codes being distinct). -/
theorem second_requestOTP_invalidates_first (email c1 c2 : String)
    (ip1 ip2 : Option String) (t1 t2 t3 : Int)
    (ident ident2 : IdentityOutcome) (st : CloudState)
    (hv : validateEmail email = true)
    (hc1 : isSixDigitCode c1 = true) (hc2 : isSixDigitCode c2 = true)
    (hne : c1 ≠ c2)
    (hrl1 : rateChecksPass (hashSHA256 (normalizeEmail email)) ip1 t1
      st.rls = true)
    (hrl2 : rateChecksPass (hashSHA256 (normalizeEmail email)) ip2 t2
      ((requestOTP email ip1 t1 c1 st).2).rls = true)
    (ht : ¬(t2 + (OTP_EXPIRY_MINUTES : Int) * 60 * 1000 < t3))
    (hid : ident.isOk = true) :
    ((requestOTP email ip2 t2 c2
        ((requestOTP email ip1 t1 c1 st).2)).2.otps.filter
      (otpMatches (hashSHA256 (normalizeEmail email))) =
      [⟨hashSHA256 (normalizeEmail email), hashSHA256 c2,
        t2 + (OTP_EXPIRY_MINUTES : Int) * 60 * 1000, 0⟩]) ∧
    (∃ res, (verifyOTP email c2 t3 ident
      ((requestOTP email ip2 t2 c2
        ((requestOTP email ip1 t1 c1 st).2)).2)).1 = .ok res) ∧
    ((verifyOTP email c1 t3 ident2
      ((requestOTP email ip2 t2 c2
        ((requestOTP email ip1 t1 c1 st).2)).2)).1 =
      .error (.objectNotFound "Invalid or expired code")) := by
  obtain ⟨rlsA, hbody1⟩ := requestOTPBody_pass
    (hashSHA256 (normalizeEmail email)) (normalizeEmail email) ip1 t1 c1 st
    hrl1
  have hst1 : (requestOTP email ip1 t1 c1 st).2 =
      ⟨st.otps.filter
        (fun r => !otpMatches (hashSHA256 (normalizeEmail email)) r) ++
          [⟨hashSHA256 (normalizeEmail email), hashSHA256 c1,
            t1 + (OTP_EXPIRY_MINUTES : Int) * 60 * 1000, 0⟩],
        rlsA, st.sent ++ [(normalizeEmail email, c1)]⟩ := by
    rw [requestOTP_validated email ip1 t1 c1 st hv, hbody1]
  obtain ⟨rlsB, hbody2⟩ := requestOTPBody_pass
    (hashSHA256 (normalizeEmail email)) (normalizeEmail email) ip2 t2 c2
    ((requestOTP email ip1 t1 c1 st).2) hrl2
  have hst2 : (requestOTP email ip2 t2 c2
      ((requestOTP email ip1 t1 c1 st).2)).2 =
      ⟨((requestOTP email ip1 t1 c1 st).2).otps.filter
        (fun r => !otpMatches (hashSHA256 (normalizeEmail email)) r) ++
          [⟨hashSHA256 (normalizeEmail email), hashSHA256 c2,
            t2 + (OTP_EXPIRY_MINUTES : Int) * 60 * 1000, 0⟩],
        rlsB, ((requestOTP email ip1 t1 c1 st).2).sent ++
          [(normalizeEmail email, c2)]⟩ := by
    rw [requestOTP_validated email ip2 t2 c2
      ((requestOTP email ip1 t1 c1 st).2) hv, hbody2]
  have hotps2 : (requestOTP email ip2 t2 c2
      ((requestOTP email ip1 t1 c1 st).2)).2.otps =
      st.otps.filter
        (fun r => !otpMatches (hashSHA256 (normalizeEmail email)) r) ++
        [⟨hashSHA256 (normalizeEmail email), hashSHA256 c2,
          t2 + (OTP_EXPIRY_MINUTES : Int) * 60 * 1000, 0⟩] := by
    rw [hst2]
    show ((requestOTP email ip1 t1 c1 st).2).otps.filter
        (fun r => !otpMatches (hashSHA256 (normalizeEmail email)) r) ++ _
        = _
    rw [hst1]
    show (st.otps.filter
        (fun r => !otpMatches (hashSHA256 (normalizeEmail email)) r) ++
        [(⟨hashSHA256 (normalizeEmail email), hashSHA256 c1,
          t1 + (OTP_EXPIRY_MINUTES : Int) * 60 * 1000, 0⟩ : OTPRecord)]).filter
        (fun r => !otpMatches (hashSHA256 (normalizeEmail email)) r) ++ _
        = _
    rw [filter_not_idem_append _ _ _ (by simp [otpMatches])]
  have hfilter : (requestOTP email ip2 t2 c2
      ((requestOTP email ip1 t1 c1 st).2)).2.otps.filter
      (otpMatches (hashSHA256 (normalizeEmail email))) =
      [⟨hashSHA256 (normalizeEmail email), hashSHA256 c2,
        t2 + (OTP_EXPIRY_MINUTES : Int) * 60 * 1000, 0⟩] := by
    rw [hotps2, List.filter_append, filter_not_self]
    simp [otpMatches]
  have hfind : ((requestOTP email ip2 t2 c2
      ((requestOTP email ip1 t1 c1 st).2)).2.otps.filter
      (otpMatches (hashSHA256 (normalizeEmail email)))).head? =
      some ⟨hashSHA256 (normalizeEmail email), hashSHA256 c2,
        t2 + (OTP_EXPIRY_MINUTES : Int) * 60 * 1000, 0⟩ := by
    rw [hfilter]
    rfl
  refine ⟨hfilter, ?_, ?_⟩
  · have hsucc := verifyOTP_success email c2 t3 ident
      ((requestOTP email ip2 t2 c2 ((requestOTP email ip1 t1 c1 st).2)).2)
      ⟨hashSHA256 (normalizeEmail email), hashSHA256 c2,
        t2 + (OTP_EXPIRY_MINUTES : Int) * 60 * 1000, 0⟩
      hv hc2 hfind ht (show (0 : Nat) < MAX_ATTEMPTS by decide) rfl
    rw [hsucc]
    cases ident with
    | newUser tok => exact ⟨⟨tok, true⟩, rfl⟩
    | existingUser tok => exact ⟨⟨tok, false⟩, rfl⟩
    | newUserFail => simp [IdentityOutcome.isOk] at hid
    | existingUserFail => simp [IdentityOutcome.isOk] at hid
  · have hnecode : hashSHA256 c1 ≠
        (⟨hashSHA256 (normalizeEmail email), hashSHA256 c2,
          t2 + (OTP_EXPIRY_MINUTES : Int) * 60 * 1000, 0⟩ :
            OTPRecord).code_hash :=
      fun hcontra => hne (hashSHA256_injective hcontra)
    rw [verifyOTP_mismatch email c1 t3 ident2
      ((requestOTP email ip2 t2 c2 ((requestOTP email ip1 t1 c1 st).2)).2)
      ⟨hashSHA256 (normalizeEmail email), hashSHA256 c2,
        t2 + (OTP_EXPIRY_MINUTES : Int) * 60 * 1000, 0⟩
      hv hc1 hfind ht (show (0 : Nat) < MAX_ATTEMPTS by decide) hnecode]

/-- Witness for C6: concrete double request with distinct codes. -/
theorem second_requestOTP_invalidates_first_witness :
    ((requestOTP "a@b.com" none 10 "222222"
        ((requestOTP "a@b.com" none 0 "111111" ⟨[], [], []⟩).2)).2.otps.filter
      (otpMatches (hashSHA256 (normalizeEmail "a@b.com"))) =
      [⟨hashSHA256 (normalizeEmail "a@b.com"), hashSHA256 "222222",
        10 + (OTP_EXPIRY_MINUTES : Int) * 60 * 1000, 0⟩]) ∧
    (∃ res, (verifyOTP "a@b.com" "222222" 20 (.existingUser "tok")
      ((requestOTP "a@b.com" none 10 "222222"
        ((requestOTP "a@b.com" none 0 "111111"
          ⟨[], [], []⟩).2)).2)).1 = .ok res) ∧
    ((verifyOTP "a@b.com" "111111" 20 (.existingUser "tok")
      ((requestOTP "a@b.com" none 10 "222222"
        ((requestOTP "a@b.com" none 0 "111111"
          ⟨[], [], []⟩).2)).2)).1 =
      .error (.objectNotFound "Invalid or expired code")) :=
  second_requestOTP_invalidates_first "a@b.com" "111111" "222222" none none
    0 10 20 (.existingUser "tok") (.existingUser "tok") ⟨[], [], []⟩
    (by decide) (by decide) (by decide) (by decide) (by decide) (by decide)
    (by decide) (by decide)


/-- C7: when a rate limit is exceeded (per-email, or per-IP after the email
check), `requestOTP` still answers success with expiresIn = 600 but leaves
the OTP code store and the outgoing-email log unchanged. -/
theorem requestOTP_rateLimited_frame (email : String)
    (clientIP : Option String) (now : Int) (newCode : String)
    (st : CloudState) (hv : validateEmail email = true)
    (hrl : rateChecksPass (hashSHA256 (normalizeEmail email)) clientIP now
      st.rls = false) :
    (requestOTP email clientIP now newCode st).1 =
      .ok ⟨true, OTP_EXPIRY_MINUTES * 60⟩ ∧
    (requestOTP email clientIP now newCode st).2.otps = st.otps ∧
    (requestOTP email clientIP now newCode st).2.sent = st.sent := by
  obtain ⟨rls2, hbody⟩ := requestOTPBody_limited
    (hashSHA256 (normalizeEmail email)) (normalizeEmail email) clientIP now
    newCode st hrl
  rw [requestOTP_validated email clientIP now newCode st hv, hbody]
  exact ⟨rfl, rfl, rfl⟩

/-- Witness for C7: the per-email counter is already at the limit (5 in the
last hour), a previously issued OTP record is in the store, and the call
reports success while the record and the email log stay as they were. -/
theorem requestOTP_rateLimited_frame_witness :
    (requestOTP "a@b.com" none 1000 "222222"
      ⟨[⟨"#a@b.com", "#111111", 601000, 0⟩],
       [⟨"#a@b.com", RLType.email, 5, 100⟩], []⟩).1 =
      .ok ⟨true, OTP_EXPIRY_MINUTES * 60⟩ ∧
    (requestOTP "a@b.com" none 1000 "222222"
      ⟨[⟨"#a@b.com", "#111111", 601000, 0⟩],
       [⟨"#a@b.com", RLType.email, 5, 100⟩], []⟩).2.otps =
      [⟨"#a@b.com", "#111111", 601000, 0⟩] ∧
    (requestOTP "a@b.com" none 1000 "222222"
      ⟨[⟨"#a@b.com", "#111111", 601000, 0⟩],
       [⟨"#a@b.com", RLType.email, 5, 100⟩], []⟩).2.sent = [] :=
  requestOTP_rateLimited_frame "a@b.com" none 1000 "222222"
    ⟨[⟨"#a@b.com", "#111111", 601000, 0⟩],
     [⟨"#a@b.com", RLType.email, 5, 100⟩], []⟩ (by decide) (by decide)

/-- C9: when the resend-specific rate limit (3 per 10 minutes) is not
exceeded, `resendOTP` is exactly `requestOTP` run on the store in which the
resend counter has been recorded: same per-email and per-IP checks, same
delete-then-recreate issuance with attempts reset to 0, same response. -/
theorem resendOTP_refines_requestOTP (email : String)
    (clientIP : Option String) (now : Int) (newCode : String)
    (st : CloudState) (hv : validateEmail email = true)
    (hres : (checkRateLimit (hashSHA256 (normalizeEmail email)) .resend
      RATE_LIMIT_RESEND_PER_10MIN 10 now st.rls).1 = false) :
    resendOTP email clientIP now newCode st =
      requestOTP email clientIP now newCode
        { st with
            rls := (checkRateLimit (hashSHA256 (normalizeEmail email))
              .resend RATE_LIMIT_RESEND_PER_10MIN 10 now st.rls).2 } := by
  rw [requestOTP_validated email clientIP now newCode _ hv]
  unfold resendOTP
  rcases hcrl : checkRateLimit (hashSHA256 (normalizeEmail email)) .resend
    RATE_LIMIT_RESEND_PER_10MIN 10 now st.rls with ⟨e, rls1⟩
  rw [hcrl] at hres
  simp only [validateEmail_ne_empty hv, hv, Bool.not_true, hcrl] at *
  cases e with
  | true => simp at hres
  | false =>
      simp only [if_neg Bool.false_ne_true]

/-- Witness for C9: a store with a pending record and an in-window resend
counter below the limit. -/
theorem resendOTP_refines_requestOTP_witness :
    resendOTP "a@b.com" none 1000 "222222"
      ⟨[⟨"#a@b.com", "#111111", 601000, 0⟩],
       [⟨"#a@b.com", RLType.resend, 2, 100⟩], []⟩ =
      requestOTP "a@b.com" none 1000 "222222"
        { otps := [⟨"#a@b.com", "#111111", 601000, 0⟩],
          rls := (checkRateLimit (hashSHA256 (normalizeEmail "a@b.com"))
            .resend RATE_LIMIT_RESEND_PER_10MIN 10 1000
            [⟨"#a@b.com", RLType.resend, 2, 100⟩]).2,
          sent := [] } :=
  resendOTP_refines_requestOTP "a@b.com" none 1000 "222222"
    ⟨[⟨"#a@b.com", "#111111", 601000, 0⟩],
     [⟨"#a@b.com", RLType.resend, 2, 100⟩], []⟩ (by decide) (by decide)


theorem rlType_beq_eq_decide (a b : RLType) : (a == b) = decide (a = b) :=
  rfl

theorem rlMatches_type {idHash : String} {t : RLType} {cutoff : Int}
    {r : RateLimitRecord} (h : rlMatches idHash t cutoff r = true) :
    r.type = t := by
  unfold rlMatches at h
  simp only [Bool.and_eq_true, rlType_beq_eq_decide, decide_eq_true_eq]
    at h
  exact h.1.2

/-- `checkRateLimit` for kind `t` reads and writes only records of kind `t`:
the sub-store of any other kind is left unchanged. -/
theorem checkRateLimit_type_frame (idHash : String) (t : RLType)
    (limit windowMinutes : Nat) (now : Int) (rls : List RateLimitRecord)
    (u : RLType) (hnt : t ≠ u) :
    ((checkRateLimit idHash t limit windowMinutes now rls).2).filter
      (fun r => r.type == u) = rls.filter (fun r => r.type == u) := by
  unfold checkRateLimit
  cases hh : (rls.filter
    (rlMatches idHash t (now - (windowMinutes : Int) * 60 * 1000))).head?
    with
  | none =>
      simp only [hh, List.filter_append]
      have : ([⟨idHash, t, 1, now⟩] :
          List RateLimitRecord).filter (fun r => r.type == u) = [] := by
        simp [rlType_beq_eq_decide, hnt]
      rw [this, List.append_nil]
  | some ex =>
      simp only [hh]
      by_cases hl : limit ≤ ex.count
      · rw [if_pos hl]
      · rw [if_neg hl]
        obtain ⟨pre, post, heq, hpre, hr⟩ := head_filter_some _ _ _ hh
        rw [heq, updateFirst_append _ _ _ _ _ hpre hr]
        have hty : ex.type = t := rlMatches_type hr
        have hu : (ex.type == u) = false := by
          simp [rlType_beq_eq_decide, hty, hnt]
        rw [List.filter_append, List.filter_append]
        simp only [List.filter_cons, hu]
        rfl

/-- C10: a `requestOTP` or `resendOTP` invocation whose request carries no
client IP never touches the "ip"-kind rate-limit records: the ip-kind
sub-store after the call equals the one before it. -/
theorem no_clientIP_skips_ip_limit (email : String) (now : Int)
    (newCode : String) (st : CloudState) :
    (requestOTP email none now newCode st).2.rls.filter
        (fun r => r.type == RLType.ip) =
      st.rls.filter (fun r => r.type == RLType.ip) ∧
    (resendOTP email none now newCode st).2.rls.filter
        (fun r => r.type == RLType.ip) =
      st.rls.filter (fun r => r.type == RLType.ip) := by
  have hereq : ∀ (stx : CloudState),
      (requestOTPBody (hashSHA256 (normalizeEmail email))
        (normalizeEmail email) none now newCode stx).2.rls.filter
          (fun r => r.type == RLType.ip) =
        stx.rls.filter (fun r => r.type == RLType.ip) := by
    intro stx
    unfold requestOTPBody
    rcases hcrl : checkRateLimit (hashSHA256 (normalizeEmail email)) .email
      RATE_LIMIT_EMAIL_PER_HOUR 60 now stx.rls with ⟨e, rls1⟩
    have hframe := checkRateLimit_type_frame
      (hashSHA256 (normalizeEmail email)) .email RATE_LIMIT_EMAIL_PER_HOUR
      60 now stx.rls RLType.ip (by decide)
    rw [hcrl] at hframe
    simp only [hcrl]
    cases e with
    | true => exact hframe
    | false =>
        rw [if_neg Bool.false_ne_true]
        exact hframe
  constructor
  · by_cases he : email = ""
    · subst he
      unfold requestOTP
      rw [if_pos (show ("" == "") = true from rfl)]
    · by_cases hv : validateEmail email = true
      · rw [requestOTP_validated email none now newCode st hv]
        exact hereq st
      · unfold requestOTP
        rw [if_neg (by simp [beq_eq_false_iff_ne.mpr he])]
        cases hb : validateEmail email with
        | true => exact absurd hb hv
        | false => rw [if_pos (by simp [hb])]
  · by_cases he : email = ""
    · subst he
      unfold resendOTP
      rw [if_pos (show ("" == "") = true from rfl)]
    · by_cases hv : validateEmail email = true
      · unfold resendOTP
        rw [if_neg (by simp [beq_eq_false_iff_ne.mpr he])]
        rw [if_neg (by simp [hv])]
        rcases hcrl : checkRateLimit (hashSHA256 (normalizeEmail email))
          .resend RATE_LIMIT_RESEND_PER_10MIN 10 now st.rls with ⟨e, rls1⟩
        have hframe := checkRateLimit_type_frame
          (hashSHA256 (normalizeEmail email)) .resend
          RATE_LIMIT_RESEND_PER_10MIN 10 now st.rls RLType.ip (by decide)
        rw [hcrl] at hframe
        simp only [hcrl]
        cases e with
        | true => exact hframe
        | false =>
            rw [if_neg Bool.false_ne_true]
            rw [hereq ⟨st.otps, rls1, st.sent⟩]
            exact hframe
      · unfold resendOTP
        rw [if_neg (by simp [beq_eq_false_iff_ne.mpr he])]
        cases hb : validateEmail email with
        | true => exact absurd hb hv
        | false => rw [if_pos (by simp [hb])]


theorem OTPInv_removeFirst (p : OTPRecord → Bool) (l : List OTPRecord)
    (h : OTPInv l) : OTPInv (removeFirst p l) := by
  obtain ⟨hnd, hatt⟩ := h
  refine ⟨hnd.sublist ((removeFirst_sublist p l).map OTPRecord.email_hash),
    ?_⟩
  intro r hr
  exact hatt r ((removeFirst_sublist p l).subset hr)

theorem OTPInv_bump (pre post : List OTPRecord) (r : OTPRecord)
    (h : OTPInv (pre ++ r :: post)) (hatt : r.attempts < MAX_ATTEMPTS) :
    OTPInv (pre ++ { r with attempts := r.attempts + 1 } :: post) := by
  obtain ⟨hnd, hall⟩ := h
  constructor
  · have hmap : (pre ++ { r with attempts := r.attempts + 1 } :: post).map
        OTPRecord.email_hash =
        (pre ++ r :: post).map OTPRecord.email_hash := by
      simp
    rw [hmap]
    exact hnd
  · intro x hx
    rcases List.mem_append.mp hx with hx1 | hx2
    · exact hall x (List.mem_append.mpr (Or.inl hx1))
    · rcases List.mem_cons.mp hx2 with rfl | hx3
      · exact Nat.succ_le_of_lt hatt
      · exact hall x (List.mem_append.mpr (Or.inr (List.mem_cons_of_mem _
          hx3)))

theorem OTPInv_issue (eh ch : String) (exp : Int) (l : List OTPRecord)
    (h : OTPInv l) :
    OTPInv (l.filter (fun r => !otpMatches eh r) ++ [⟨eh, ch, exp, 0⟩]) := by
  obtain ⟨hnd, hatt⟩ := h
  constructor
  · rw [List.map_append, List.nodup_append]
    refine ⟨hnd.sublist ((List.filter_sublist l).map OTPRecord.email_hash),
      by simp, ?_⟩
    intro a ha hb
    simp only [List.map_cons, List.map_nil, List.mem_cons,
      List.not_mem_nil, or_false] at hb
    obtain ⟨x, hxmem, hxeq⟩ := List.mem_map.mp ha
    have hfalse := mem_filter_not _ _ _ hxmem
    unfold otpMatches at hfalse
    have : x.email_hash ≠ eh := beq_eq_false_iff_ne.mp hfalse
    exact this (hxeq.trans hb)
  · intro x hx
    rcases List.mem_append.mp hx with hx1 | hx2
    · exact hatt x (List.mem_of_mem_filter hx1)
    · rcases List.mem_cons.mp hx2 with rfl | hx3
      · exact (show (0 : Nat) ≤ MAX_ATTEMPTS by decide)
      · exact absurd hx3 (List.not_mem_nil x)

theorem OTPInv_requestOTPBody (eh ne : String) (clientIP : Option String)
    (now : Int) (newCode : String) (st : CloudState)
    (h : OTPInv st.otps) :
    OTPInv ((requestOTPBody eh ne clientIP now newCode st).2).otps := by
  by_cases hrl : rateChecksPass eh clientIP now st.rls = true
  · obtain ⟨rls2, hbody⟩ := requestOTPBody_pass eh ne clientIP now newCode
      st hrl
    rw [hbody]
    exact OTPInv_issue eh (hashSHA256 newCode)
      (now + (OTP_EXPIRY_MINUTES : Int) * 60 * 1000) st.otps h
  · have hrl' : rateChecksPass eh clientIP now st.rls = false := by
      cases hb : rateChecksPass eh clientIP now st.rls with
      | true => exact absurd hb hrl
      | false => rfl
    obtain ⟨rls2, hbody⟩ := requestOTPBody_limited eh ne clientIP now
      newCode st hrl'
    rw [hbody]
    exact h

theorem OTPInv_requestOTP (email : String) (clientIP : Option String)
    (now : Int) (newCode : String) (st : CloudState)
    (h : OTPInv st.otps) :
    OTPInv ((requestOTP email clientIP now newCode st).2).otps := by
  by_cases hv : validateEmail email = true
  · rw [requestOTP_validated email clientIP now newCode st hv]
    exact OTPInv_requestOTPBody _ _ clientIP now newCode st h
  · unfold requestOTP
    by_cases he : (email == "") = true
    · rw [if_pos he]
      exact h
    · rw [if_neg he]
      cases hb : validateEmail email with
      | true => exact absurd hb hv
      | false =>
          rw [if_pos (by simp [hb])]
          exact h

theorem OTPInv_resendOTP (email : String) (clientIP : Option String)
    (now : Int) (newCode : String) (st : CloudState)
    (h : OTPInv st.otps) :
    OTPInv ((resendOTP email clientIP now newCode st).2).otps := by
  unfold resendOTP
  by_cases he : (email == "") = true
  · rw [if_pos he]
    exact h
  · rw [if_neg he]
    cases hb : validateEmail email with
    | false =>
        rw [if_pos (by simp [hb])]
        exact h
    | true =>
        rw [if_neg (by simp [hb])]
        rcases hcrl : checkRateLimit (hashSHA256 (normalizeEmail email))
          .resend RATE_LIMIT_RESEND_PER_10MIN 10 now st.rls with ⟨e, rls1⟩
        simp only [hcrl]
        cases e with
        | true =>
            rw [if_pos rfl]
            exact h
        | false =>
            rw [if_neg Bool.false_ne_true]
            exact OTPInv_requestOTPBody _ _ clientIP now newCode
              ⟨st.otps, rls1, st.sent⟩ h

theorem OTPInv_verifyOTP (email code : String) (now : Int)
    (ident : IdentityOutcome) (st : CloudState) (h : OTPInv st.otps) :
    OTPInv ((verifyOTP email code now ident st).2).otps := by
  by_cases hv : validateEmail email = true
  · by_cases hc : isSixDigitCode code = true
    · cases hh : (st.otps.filter
        (otpMatches (hashSHA256 (normalizeEmail email)))).head? with
      | none =>
          rw [verifyOTP_noRecord email code now ident st hv hc hh]
          exact h
      | some r =>
          by_cases hexp : r.expires_at < now
          · rw [verifyOTP_expired email code now ident st r hv hc hh hexp]
            exact OTPInv_removeFirst _ st.otps h
          · by_cases hatt : MAX_ATTEMPTS ≤ r.attempts
            · rw [verifyOTP_maxAttempts email code now ident st r hv hc hh
                hexp hatt]
              exact OTPInv_removeFirst _ st.otps h
            · by_cases hcode : hashSHA256 code = r.code_hash
              · rw [verifyOTP_success email code now ident st r hv hc hh
                  hexp (Nat.not_le.mp hatt) hcode]
                exact OTPInv_removeFirst _ st.otps h
              · rw [verifyOTP_mismatch email code now ident st r hv hc hh
                  hexp (Nat.not_le.mp hatt) hcode]
                obtain ⟨pre, post, heq, hpre, hr⟩ :=
                  head_filter_some _ _ _ hh
                show OTPInv (updateFirst _ _ st.otps)
                rw [heq, updateFirst_append _ _ _ _ _ hpre hr]
                exact OTPInv_bump pre post r (heq ▸ h) (Nat.not_le.mp hatt)
    · unfold verifyOTP
      by_cases h1 : (email == "" || code == "") = true
      · rw [if_pos h1]
        exact h
      · rw [if_neg h1]
        rw [if_neg (by simp [hv])]
        cases hb : isSixDigitCode code with
        | true => exact absurd hb hc
        | false =>
            rw [if_pos (by simp [hb])]
            exact h
  · unfold verifyOTP
    by_cases h1 : (email == "" || code == "") = true
    · rw [if_pos h1]
      exact h
    · rw [if_neg h1]
      cases hb : validateEmail email with
      | true => exact absurd hb hv
      | false =>
          rw [if_pos (by simp [hb])]
          exact h

theorem runOp_preserves_OTPInv (st : CloudState) (op : OTPOp)
    (h : OTPInv st.otps) : OTPInv ((runOp st op).otps) := by
  cases op with
  | request email clientIP now newCode =>
      exact OTPInv_requestOTP email clientIP now newCode st h
  | resend email clientIP now newCode =>
      exact OTPInv_resendOTP email clientIP now newCode st h
  | verify email code now ident =>
      exact OTPInv_verifyOTP email code now ident st h

/-- C8: every sequence of `requestOTP`, `resendOTP` and `verifyOTP`
invocations preserves the code-store invariant: at most one OTP record per
email hash, and every live record has `attempts ≤ MAX_ATTEMPTS`. -/
theorem runOps_preserves_OTPInv (st : CloudState) (ops : List OTPOp)
    (h : OTPInv st.otps) : OTPInv ((runOps st ops).otps) := by
  induction ops generalizing st with
  | nil => exact h
  | cons op rest ih =>
      have hstep := runOp_preserves_OTPInv st op h
      have : runOps st (op :: rest) = runOps (runOp st op) rest := rfl
      rw [this]
      exact ih (runOp st op) hstep

/-- Witness for C8: a concrete mixed sequence of requests, resends, failed
and successful verifications starting from the empty store. -/
theorem runOps_preserves_OTPInv_witness :
    OTPInv ((runOps ⟨[], [], []⟩
      [.request "a@b.com" none 0 "111111",
       .verify "a@b.com" "000000" 1 (.existingUser "t"),
       .resend "a@b.com" (some "1.2.3.4") 2 "222222",
       .verify "a@b.com" "222222" 3 (.newUser "t2"),
       .verify "a@b.com" "222222" 4 (.existingUser "t3")]).otps) :=
  runOps_preserves_OTPInv ⟨[], [], []⟩
    [.request "a@b.com" none 0 "111111",
     .verify "a@b.com" "000000" 1 (.existingUser "t"),
     .resend "a@b.com" (some "1.2.3.4") 2 "222222",
     .verify "a@b.com" "222222" 3 (.newUser "t2"),
     .verify "a@b.com" "222222" 4 (.existingUser "t3")]
    (by decide)

end Gigz
